import Mathlib

/-!
Shallow embedding of
`components/org.apache.stratos.python.cartridge.agent/src/main/python/cartridge.agent/cartridge.agent/publisher.py`
(Apache Stratos python cartridge agent, event publisher).

Pure data and control flow of the module are translated directly; external
collaborators (the MQTT client `paho.mqtt.publish.single`, the port liveness
check `cartridgeagentutils.wait_until_ports_active`, the health statistics
manager, the wall clock `time.time()`) are modelled as oracle parameters.
Side effects (log calls, event construction, thread spawns, endpoint publish
attempts, sleeps, flag writes) are recorded in an explicit effect trace.
-/

namespace Stratos

/-- The event variants constructed in `publisher.py`, with the constructor
argument lists exactly as at the call sites (lines 48-56, 86-93, 141-148,
171-178, 190, 197 of the source). -/
inductive Event where
  | instanceStarted (application_id service_name cluster_id cluster_instance_id
      member_id instance_id network_partition_id partition_id : String)
  | instanceActivated (service_name cluster_id cluster_instance_id
      member_id instance_id network_partition_id partition_id : String)
  | instanceMaintenanceMode (service_name cluster_id cluster_instance_id
      member_id instance_id network_partition_id partition_id : String)
  | instanceReadyToShutdown (service_name cluster_id cluster_instance_id
      member_id instance_id network_partition_id partition_id : String)
  | completeTopologyRequest
  | completeTenantRequest
  deriving Repr, DecidableEq

/-- The slice of the process-wide `Config` object read by `publisher.py`:
the four one-shot lifecycle flags, the identity fields used to populate
events, and the broker / statistics configuration. -/
structure Config where
  started : Bool
  activated : Bool
  maintenance : Bool
  ready_to_shutdown : Bool
  application_id : String
  service_name : String
  cluster_id : String
  member_id : String
  instance_id : String
  cluster_instance_id : String
  network_partition_id : String
  partition_id : String
  listen_address : String
  ports : List String
  mb_username : Option String
  mb_password : Option String
  mb_urls : List String
  mb_publisher_timeout : Int
  cep_publisher_enabled : Bool
  stats_notifier_interval : Option String
  deriving Repr, DecidableEq

/-- `EventPublisher.__init__` (source lines 215-218): stores the topic and
`int(time.time())` at construction.  The logger field carries no state and is
omitted. -/
structure EventPublisher where
  topic : String
  start_time : Int
  deriving Repr, DecidableEq

/-- One observable side effect of the module.  Log calls keep the level and
the formatted message; `spawnDeliveryTask` records the `publisher.publish(event)`
call (source line 221-222: a detached thread running `__publish_event`);
`attemptPublish` records one `publish.single` call to one endpoint;
the four `set*Flag` effects record the `Config.<flag> = True` writes. -/
inductive Effect where
  | logInfo (msg : String)
  | logWarn (msg : String)
  | logError (msg : String)
  | logDebug (msg : String)
  | constructEvent (e : Event)
  | getPublisherCall (topic : String)
  | spawnDeliveryTask (p : EventPublisher) (e : Event)
  | setStartedFlag
  | setActivatedFlag
  | setMaintenanceFlag
  | setReadyToShutdownFlag
  | startStatsPublisher (interval : Int)
  | attemptPublish (ip : String) (port : String)
  | sleep (seconds : Nat)
  deriving Repr, DecidableEq

/-- Modelled from the spec: the `constants` module is outside the source
slice.  Per section 6 of the design, a topic is the concatenation of a
category prefix (instance-status or initializer) with an event-type suffix;
the concrete strings below only need to be fixed and distinct per kind. -/
def INSTANCE_STATUS_TOPIC : String := "instance/status/"

def INITIALIZER_TOPIC : String := "initializer/"

def INSTANCE_STARTED_EVENT : String := "InstanceStartedEvent"

def INSTANCE_ACTIVATED_EVENT : String := "InstanceActivatedEvent"

def INSTANCE_MAINTENANCE_MODE_EVENT : String := "InstanceMaintenanceModeEvent"

def INSTANCE_READY_TO_SHUTDOWN_EVENT : String := "InstanceReadyToShutdownEvent"

def COMPLETE_TOPOLOGY_REQUEST_EVENT : String := "CompleteTopologyRequestEvent"

def COMPLETE_TENANT_REQUEST_EVENT : String := "CompleteTenantRequestEvent"

/-- The module-level `publishers` dict (source line 31), as an association
list with python-dict update semantics. -/
abbrev Registry := List (String × EventPublisher)

/-- Python `publishers[topic]` / `topic in publishers` lookup. -/
def dictLookup (m : Registry) (k : String) : Option EventPublisher :=
  match m with
  | [] => none
  | (k', v) :: rest => if k' = k then some v else dictLookup rest k

/-- Python `publishers[topic] = v`: overwrite in place if the key exists,
append otherwise. -/
def dictInsert (m : Registry) (k : String) (v : EventPublisher) : Registry :=
  match m with
  | [] => [(k, v)]
  | (k', v') :: rest =>
      if k' = k then (k', v) :: rest else (k', v') :: dictInsert rest k v

/-- `get_publisher(topic)` (source lines 203-207): construct and store a new
`EventPublisher(topic)` when the topic is absent, then return the stored
entry.  `now` is the value of `int(time.time())` at construction time. -/
def get_publisher (now : Int) (pubs : Registry) (topic : String) :
    EventPublisher × Registry :=
  match dictLookup pubs topic with
  | some p => (p, pubs)
  | none =>
      let p : EventPublisher := ⟨topic, now⟩
      (p, dictInsert pubs topic p)

/-- The `int(interval)`-with-default logic of source lines 104-112:
`stats.notifier.interval` is parsed when present and non-empty, any parse
failure or absence falls back to the 15 second default.  `String.toInt?`
stands in for python `int()`. -/
def parseStatsInterval (prop : Option String) : Int :=
  match prop with
  | some s =>
      if s.length > 0 then
        match s.toInt? with
        | some n => n
        | none => 15
      else 15
  | none => 15

/-- `publish_instance_started_event` (source lines 35-63) as a state
transition on `(Config, Registry)` with an effect trace. -/
def publish_instance_started_event (cfg : Config) (pubs : Registry) (now : Int) :
    Config × Registry × List Effect :=
  if !cfg.started then
    let ev := Event.instanceStarted cfg.application_id cfg.service_name
      cfg.cluster_id cfg.cluster_instance_id cfg.member_id cfg.instance_id
      cfg.network_partition_id cfg.partition_id
    let topic := INSTANCE_STATUS_TOPIC ++ INSTANCE_STARTED_EVENT
    let gp := get_publisher now pubs topic
    ({cfg with started := true}, gp.2,
      [Effect.logInfo "Publishing instance started event...",
       Effect.constructEvent ev,
       Effect.getPublisherCall topic,
       Effect.spawnDeliveryTask gp.1 ev,
       Effect.setStartedFlag,
       Effect.logInfo "Instance started event published"])
  else
    (cfg, pubs, [Effect.logWarn "Instance already started"])

/-- The error logged at source lines 122-124 when the port liveness check
times out. -/
def portsErrMsg (cfg : Config) : String :=
  "Ports activation timed out. Aborting publishing instance activated event [IPAddress] "
    ++ cfg.listen_address ++ " [Ports] " ++ toString cfg.ports

/-- `publish_instance_activated_event` (source lines 66-126).  The external
`wait_until_ports_active` call is the oracle argument `ports_active`; the
`HealthStatisticsPublisherManager(interval).start()` call is the
`startStatsPublisher` effect. -/
def publish_instance_activated_event (cfg : Config) (pubs : Registry)
    (now : Int) (ports_active : Bool) : Config × Registry × List Effect :=
  if !cfg.activated then
    if ports_active then
      let ev := Event.instanceActivated cfg.service_name cfg.cluster_id
        cfg.cluster_instance_id cfg.member_id cfg.instance_id
        cfg.network_partition_id cfg.partition_id
      let topic := INSTANCE_STATUS_TOPIC ++ INSTANCE_ACTIVATED_EVENT
      let gp := get_publisher now pubs topic
      let statsEffects :=
        if cfg.cep_publisher_enabled then
          let interval := parseStatsInterval cfg.stats_notifier_interval
          [Effect.logInfo ("Starting Health statistics publisher with interval "
              ++ toString interval),
           Effect.startStatsPublisher interval]
        else
          [Effect.logWarn "Statistics publisher is disabled"]
      ({cfg with activated := true}, gp.2,
        [Effect.logInfo "Publishing instance activated event...",
         Effect.constructEvent ev,
         Effect.getPublisherCall topic,
         Effect.spawnDeliveryTask gp.1 ev,
         Effect.logInfo "Instance activated event published",
         Effect.logInfo "Starting health statistics notifier"]
        ++ statsEffects
        ++ [Effect.setActivatedFlag,
            Effect.logInfo "Health statistics notifier started"])
    else
      (cfg, pubs, [Effect.logError (portsErrMsg cfg)])
  else
    (cfg, pubs, [Effect.logWarn "Instance already activated"])

/-- `publish_maintenance_mode_event` (source lines 129-156). -/
def publish_maintenance_mode_event (cfg : Config) (pubs : Registry) (now : Int) :
    Config × Registry × List Effect :=
  if !cfg.maintenance then
    let ev := Event.instanceMaintenanceMode cfg.service_name cfg.cluster_id
      cfg.cluster_instance_id cfg.member_id cfg.instance_id
      cfg.network_partition_id cfg.partition_id
    let topic := INSTANCE_STATUS_TOPIC ++ INSTANCE_MAINTENANCE_MODE_EVENT
    let gp := get_publisher now pubs topic
    ({cfg with maintenance := true}, gp.2,
      [Effect.logInfo "Publishing instance maintenance mode event...",
       Effect.constructEvent ev,
       Effect.getPublisherCall topic,
       Effect.spawnDeliveryTask gp.1 ev,
       Effect.setMaintenanceFlag,
       Effect.logInfo "Instance maintenance mode event published"])
  else
    (cfg, pubs, [Effect.logWarn "Instance already in a maintenance mode"])

/-- `publish_instance_ready_to_shutdown_event` (source lines 159-186).  The
initial info log really says "Publishing instance activated event..." in the
source (a copy-paste slip preserved here). -/
def publish_instance_ready_to_shutdown_event (cfg : Config) (pubs : Registry)
    (now : Int) : Config × Registry × List Effect :=
  if !cfg.ready_to_shutdown then
    let ev := Event.instanceReadyToShutdown cfg.service_name cfg.cluster_id
      cfg.cluster_instance_id cfg.member_id cfg.instance_id
      cfg.network_partition_id cfg.partition_id
    let topic := INSTANCE_STATUS_TOPIC ++ INSTANCE_READY_TO_SHUTDOWN_EVENT
    let gp := get_publisher now pubs topic
    ({cfg with ready_to_shutdown := true}, gp.2,
      [Effect.logInfo "Publishing instance activated event...",
       Effect.constructEvent ev,
       Effect.getPublisherCall topic,
       Effect.spawnDeliveryTask gp.1 ev,
       Effect.setReadyToShutdownFlag,
       Effect.logInfo "Instance ReadyToShutDown event published"])
  else
    (cfg, pubs, [Effect.logWarn "Instance already in a ReadyToShutDown event..."])

/-- `publish_complete_topology_request_event` (source lines 189-193): no
flag guard, every call constructs an event and hands it off. -/
def publish_complete_topology_request_event (cfg : Config) (pubs : Registry)
    (now : Int) : Config × Registry × List Effect :=
  let ev := Event.completeTopologyRequest
  let topic := INITIALIZER_TOPIC ++ COMPLETE_TOPOLOGY_REQUEST_EVENT
  let gp := get_publisher now pubs topic
  (cfg, gp.2,
    [Effect.constructEvent ev,
     Effect.getPublisherCall topic,
     Effect.spawnDeliveryTask gp.1 ev,
     Effect.logInfo "Complete topology request event published"])

/-- `publish_complete_tenant_request_event` (source lines 196-200). -/
def publish_complete_tenant_request_event (cfg : Config) (pubs : Registry)
    (now : Int) : Config × Registry × List Effect :=
  let ev := Event.completeTenantRequest
  let topic := INITIALIZER_TOPIC ++ COMPLETE_TENANT_REQUEST_EVENT
  let gp := get_publisher now pubs topic
  (cfg, gp.2,
    [Effect.constructEvent ev,
     Effect.getPublisherCall topic,
     Effect.spawnDeliveryTask gp.1 ev,
     Effect.logInfo "Complete tenant request event published"])

/-- The fixed retry interval table passed to `IncrementalCeilingListIterator`
at source line 244. -/
def incrementalList : List Nat := [2, 2, 5, 5, 10, 10, 20, 20, 30, 30, 40, 40, 50, 50, 60]

/-- Modelled from the spec: `IncrementalCeilingListIterator` lives in
`modules.util.cartridgeagentutils`, outside the source slice.  Per section
4.1 of the design, in fixed-table mode `get_next_retry_interval()` returns
the element at the cursor and advances it, clamping at the final index; so
the value returned on the i-th call (0-based) is the element at index
`min i (length - 1)`. -/
def retryIntervalAt (i : Nat) : Nat :=
  incrementalList.getD (min i (incrementalList.length - 1)) 0

/-- Outcome of one run of the delivery task `__publish_event`. -/
inductive TaskResult where
  | success
  | dropped
  | raised
  | outOfFuel
  deriving Repr, DecidableEq

/-- Character-level model of python `str.split(sep)` for a one-character
separator, as used by `mb_url.split(":")` at source line 251: splitting never
returns an empty list, and returns exactly two pieces exactly when the
separator occurs exactly once. -/
def splitAux (sep : Char) : List Char → List Char → List (List Char)
  | [], acc => [acc.reverse]
  | c :: rest, acc =>
      if c = sep then acc.reverse :: splitAux sep rest []
      else splitAux sep rest (c :: acc)

/-- Python `s.split(":")` (one-character separator). -/
def pySplit (s : String) (sep : Char) : List String :=
  (splitAux sep s.toList []).map (fun cs => String.mk cs)

/-- Host-port split of one `mb_url`: succeeds exactly when the python
unpacking `mb_ip, mb_port = mb_url.split(":")` (source line 251) would
succeed, i.e. when the split yields exactly two pieces. -/
def parseUrl (u : String) : Option (String × String) :=
  match pySplit u ':' with
  | [ip, port] => some (ip, port)
  | _ => none

/-- The debug message of source line 255. -/
def publishedMsg (ip port : String) : String :=
  "Event published to " ++ ip ++ ":" ++ port

/-- The debug message of source line 258. -/
def endpointFailMsg (ip port : String) : String :=
  "Could not publish event to message broker " ++ ip ++ ":" ++ port ++ "."

/-- The debug message of source lines 260-262. -/
def retryMsg (interval : Nat) : String :=
  "Could not publish event to any of the provided message brokers. Retrying in "
    ++ toString interval ++ " seconds."

/-- The warning of source lines 266-267, formatted with
`Config.mb_publisher_timeout`. -/
def dropMsg (timeout : Int) : String :=
  "Could not publish even to any of the provided message brokers before the timeout ["
    ++ toString timeout ++ "] exceeded. The event will be dropped."

/-- One pass of the `for mb_url in Config.mb_urls` loop (source lines
250-258), starting at endpoint index `j`; `ok j` is the outcome of the
`publish.single` attempt on the j-th endpoint.  Returns `some true` when an
endpoint accepted the payload (the `return True` at line 256), `some false`
when every endpoint failed, and `none` when some URL did not split into
exactly host and port - that unpacking (`mb_ip, mb_port = mb_url.split(":")`,
line 251) sits outside the `try`, so its failure is an unhandled exception. -/
def sweepFrom (ok : Nat → Bool) : List String → Nat → Option Bool × List Effect
  | [], _ => (some false, [])
  | url :: rest, j =>
      match parseUrl url with
      | some (ip, port) =>
          if ok j then
            (some true,
              [Effect.attemptPublish ip port, Effect.logDebug (publishedMsg ip port)])
          else
            let r := sweepFrom ok rest (j + 1)
            (r.1,
              Effect.attemptPublish ip port
                :: Effect.logDebug (endpointFailMsg ip port) :: r.2)
      | none => (none, [])

/-- The `while int(time.time()) - self.__start_time < (Config.mb_publisher_timeout * 1000)`
loop of `__publish_event` (source lines 247-268).  `clock i` is the value of
`int(time.time())` at the i-th evaluation of the loop guard, `ok i j` the
outcome of the `publish.single` attempt on endpoint `j` during sweep `i`, and
`fuel` bounds the number of iterations the model unfolds (`outOfFuel` marks a
run the model did not finish; the real loop is bounded by the clock). -/
def publishLoop (start_time timeout : Int) (urls : List String)
    (clock : Nat → Int) (ok : Nat → Nat → Bool) : Nat → Nat → TaskResult × List Effect
  | 0, _ => (TaskResult.outOfFuel, [])
  | fuel + 1, i =>
      if clock i - start_time < timeout * 1000 then
        let retry_interval := retryIntervalAt i
        match sweepFrom (ok i) urls 0 with
        | (some true, es) => (TaskResult.success, es)
        | (some false, es) =>
            let r := publishLoop start_time timeout urls clock ok fuel (i + 1)
            (r.1, es ++ [Effect.logDebug (retryMsg retry_interval),
                         Effect.sleep retry_interval] ++ r.2)
        | (none, es) => (TaskResult.raised, es)
      else
        (TaskResult.dropped, [Effect.logWarn (dropMsg timeout)])

/-- `__publish_event` (source lines 224-268), entered by the thread spawned in
`publish`: serializes the payload, builds a fresh retry iterator, and runs the
retry loop from sweep index 0.  The payload and the auth dictionary are
consumed only by the external `publish.single` call, whose outcome is the
`ok` oracle, so they leave no trace of their own. -/
def publish_event (cfg : Config) (p : EventPublisher) (clock : Nat → Int)
    (ok : Nat → Nat → Bool) (fuel : Nat) : TaskResult × List Effect :=
  publishLoop p.start_time cfg.mb_publisher_timeout cfg.mb_urls clock ok fuel 0

/-- Number of `spawnDeliveryTask` effects in a trace. -/
def countSpawns : List Effect → Nat
  | [] => 0
  | Effect.spawnDeliveryTask _ _ :: es => countSpawns es + 1
  | _ :: es => countSpawns es

/-- Number of `constructEvent` effects in a trace. -/
def countConstructs : List Effect → Nat
  | [] => 0
  | Effect.constructEvent _ :: es => countConstructs es + 1
  | _ :: es => countConstructs es

/-- Number of endpoint publish attempts in a trace. -/
def countAttempts : List Effect → Nat
  | [] => 0
  | Effect.attemptPublish _ _ :: es => countAttempts es + 1
  | _ :: es => countAttempts es

/-- Number of `sleep` effects in a trace. -/
def countSleeps : List Effect → Nat
  | [] => 0
  | Effect.sleep _ :: es => countSleeps es + 1
  | _ :: es => countSleeps es

/-- Number of warning-level log effects in a trace. -/
def countWarns : List Effect → Nat
  | [] => 0
  | Effect.logWarn _ :: es => countWarns es + 1
  | _ :: es => countWarns es

/-- Number of debug-level log effects in a trace. -/
def countDebugs : List Effect → Nat
  | [] => 0
  | Effect.logDebug _ :: es => countDebugs es + 1
  | _ :: es => countDebugs es

/-- The endpoint attempts of a trace, in order. -/
def attemptsOf : List Effect → List (String × String)
  | [] => []
  | Effect.attemptPublish ip port :: es => (ip, port) :: attemptsOf es
  | _ :: es => attemptsOf es

/-- The four one-shot lifecycle event kinds. -/
inductive Kind where
  | started
  | activated
  | maintenance
  | readyToShutdown
  deriving Repr, DecidableEq

/-- The one-shot flag guarding a lifecycle kind. -/
def flagOf : Kind → Config → Bool
  | Kind.started, cfg => cfg.started
  | Kind.activated, cfg => cfg.activated
  | Kind.maintenance, cfg => cfg.maintenance
  | Kind.readyToShutdown, cfg => cfg.ready_to_shutdown

/-- The warning logged by a lifecycle publish function when its flag is
already set. -/
def alreadyMsg : Kind → String
  | Kind.started => "Instance already started"
  | Kind.activated => "Instance already activated"
  | Kind.maintenance => "Instance already in a maintenance mode"
  | Kind.readyToShutdown => "Instance already in a ReadyToShutDown event..."

/-- Dispatch to the four lifecycle publish functions.  The `ports_active`
oracle is consumed only by the activated kind. -/
def gateCall (k : Kind) (cfg : Config) (pubs : Registry) (now : Int)
    (ports_active : Bool) : Config × Registry × List Effect :=
  match k with
  | Kind.started => publish_instance_started_event cfg pubs now
  | Kind.activated => publish_instance_activated_event cfg pubs now ports_active
  | Kind.maintenance => publish_maintenance_mode_event cfg pubs now
  | Kind.readyToShutdown => publish_instance_ready_to_shutdown_event cfg pubs now

/-- Program counter of one thread executing `get_publisher(topic)`.  The GIL
makes each of the three operations atomic, but a thread may be preempted
between them: `check` is the `topic not in publishers` test (line 204),
`store` the `publishers[topic] = EventPublisher(topic)` assignment (line
205), and `ret` the `return publishers[topic]` lookup (line 207). -/
inductive RacePC where
  | check
  | store
  | ret
  | done
  deriving Repr, DecidableEq

/-- One thread of the concurrent `get_publisher` scenario: its program
counter and, once done, the publisher it returned. -/
structure RaceThread where
  pc : RacePC
  retVal : Option EventPublisher
  deriving Repr, DecidableEq

/-- Global state of two threads calling `get_publisher` on the same topic:
the shared `publishers` dict, both threads, and a count of `EventPublisher`
constructions performed so far. -/
structure RaceState where
  pubs : Registry
  t0 : RaceThread
  t1 : RaceThread
  constructions : Nat
  deriving Repr, DecidableEq

/-- One atomic step of a thread running `get_publisher topic`; `now` is the
value of `int(time.time())` at that step. -/
def raceThreadStep (topic : String) (now : Int) (pubs : Registry)
    (t : RaceThread) (cons : Nat) : Registry × RaceThread × Nat :=
  match t.pc with
  | RacePC.check =>
      if (dictLookup pubs topic).isSome then
        (pubs, {t with pc := RacePC.ret}, cons)
      else
        (pubs, {t with pc := RacePC.store}, cons)
  | RacePC.store =>
      (dictInsert pubs topic ⟨topic, now⟩, {t with pc := RacePC.ret}, cons + 1)
  | RacePC.ret =>
      (pubs, ⟨RacePC.done, dictLookup pubs topic⟩, cons)
  | RacePC.done => (pubs, t, cons)

/-- One scheduler step: `true` steps thread 0, `false` thread 1. -/
def raceStep (topic : String) (now : Int) (b : Bool) (s : RaceState) : RaceState :=
  if b then
    let r := raceThreadStep topic now s.pubs s.t0 s.constructions
    { pubs := r.1, t0 := r.2.1, t1 := s.t1, constructions := r.2.2 }
  else
    let r := raceThreadStep topic now s.pubs s.t1 s.constructions
    { pubs := r.1, t0 := s.t0, t1 := r.2.1, constructions := r.2.2 }

/-- Run a schedule of interleaved steps; `clock i` is the wall-clock value at
the i-th global step. -/
def raceRun (topic : String) (clock : Nat → Int) :
    List Bool → Nat → RaceState → RaceState
  | [], _, s => s
  | b :: rest, i, s => raceRun topic clock rest (i + 1) (raceStep topic (clock i) b s)

/-- Both threads about to call `get_publisher topic` on an empty registry. -/
def raceInit : RaceState :=
  { pubs := [],
    t0 := ⟨RacePC.check, none⟩,
    t1 := ⟨RacePC.check, none⟩,
    constructions := 0 }

/-- Upper bound on the constructions a thread may have performed so far: a
thread still at its membership check, or about to store having seen the topic
absent, has constructed nothing; past that it has constructed at most one
publisher. -/
def storeContribution (t : RaceThread) : Nat :=
  if t.pc = RacePC.check ∨ t.pc = RacePC.store then 0 else 1

/-- Invariant of the two-thread `get_publisher` interleaving: the shared dict
binds at most the requested topic, and then to a publisher carrying that
topic; a thread about to execute `return publishers[topic]` sees the topic
present; a finished thread returned a publisher for the topic; and the number
of constructions is bounded by the number of threads past their store
opportunity. -/
def RaceInv (topic : String) (s : RaceState) : Prop :=
  (s.pubs = [] ∨ ∃ p : EventPublisher, s.pubs = [(topic, p)] ∧ p.topic = topic)
  ∧ (s.t0.pc = RacePC.ret → (dictLookup s.pubs topic).isSome = true)
  ∧ (s.t1.pc = RacePC.ret → (dictLookup s.pubs topic).isSome = true)
  ∧ (s.t0.pc = RacePC.done → ∃ p, s.t0.retVal = some p ∧ p.topic = topic)
  ∧ (s.t1.pc = RacePC.done → ∃ p, s.t1.retVal = some p ∧ p.topic = topic)
  ∧ s.constructions ≤ storeContribution s.t0 + storeContribution s.t1

/-- Sample configuration used to instantiate universally quantified theorems
at concrete inputs. -/
def sampleConfig : Config :=
  { started := false, activated := false, maintenance := false,
    ready_to_shutdown := false, application_id := "app-1",
    service_name := "php", cluster_id := "php.cluster", member_id := "member-1",
    instance_id := "instance-1", cluster_instance_id := "cluster-instance-1",
    network_partition_id := "np-1", partition_id := "p-1",
    listen_address := "127.0.0.1", ports := ["8080"],
    mb_username := none, mb_password := none,
    mb_urls := ["localhost:1883"], mb_publisher_timeout := 900,
    cep_publisher_enabled := true, stats_notifier_interval := none }

theorem dictLookup_dictInsert (m : Registry) (k : String) (v : EventPublisher) :
    dictLookup (dictInsert m k v) k = some v := by
  induction m with
  | nil => simp [dictInsert, dictLookup]
  | cons kv rest ih =>
      by_cases h : kv.1 = k
      · simp [dictInsert, dictLookup, h]
      · simp [dictInsert, dictLookup, h, ih]

theorem countSpawns_append (l1 l2 : List Effect) :
    countSpawns (l1 ++ l2) = countSpawns l1 + countSpawns l2 := by
  induction l1 with
  | nil => simp [countSpawns]
  | cons e es ih =>
      cases e <;> simp [countSpawns, ih]
      omega

theorem countConstructs_append (l1 l2 : List Effect) :
    countConstructs (l1 ++ l2) = countConstructs l1 + countConstructs l2 := by
  induction l1 with
  | nil => simp [countConstructs]
  | cons e es ih =>
      cases e <;> simp [countConstructs, ih]
      omega

theorem countAttempts_append (l1 l2 : List Effect) :
    countAttempts (l1 ++ l2) = countAttempts l1 + countAttempts l2 := by
  induction l1 with
  | nil => simp [countAttempts]
  | cons e es ih =>
      cases e <;> simp [countAttempts, ih]
      omega

theorem countSleeps_append (l1 l2 : List Effect) :
    countSleeps (l1 ++ l2) = countSleeps l1 + countSleeps l2 := by
  induction l1 with
  | nil => simp [countSleeps]
  | cons e es ih =>
      cases e <;> simp [countSleeps, ih]
      omega

theorem countWarns_append (l1 l2 : List Effect) :
    countWarns (l1 ++ l2) = countWarns l1 + countWarns l2 := by
  induction l1 with
  | nil => simp [countWarns]
  | cons e es ih =>
      cases e <;> simp [countWarns, ih]
      omega

theorem countDebugs_append (l1 l2 : List Effect) :
    countDebugs (l1 ++ l2) = countDebugs l1 + countDebugs l2 := by
  induction l1 with
  | nil => simp [countDebugs]
  | cons e es ih =>
      cases e <;> simp [countDebugs, ih]
      omega

theorem attemptsOf_append (l1 l2 : List Effect) :
    attemptsOf (l1 ++ l2) = attemptsOf l1 ++ attemptsOf l2 := by
  induction l1 with
  | nil => simp [attemptsOf]
  | cons e es ih => cases e <;> simp [attemptsOf, ih]

/-- C6: `get_publisher(topic)` constructs and stores a publisher stamped with
the current time only when the topic is absent; when the topic is present it
returns the stored instance and leaves the registry unchanged, and after a
first call every further call (at any later time) returns the identical
stored instance with the registry state unchanged, its creation timestamp
never refreshed. -/
theorem c6_get_publisher_idempotent (pubs : Registry) (topic : String)
    (now now2 : Int) :
    (dictLookup pubs topic = none →
      get_publisher now pubs topic =
        (⟨topic, now⟩, dictInsert pubs topic ⟨topic, now⟩))
    ∧ (∀ p, dictLookup pubs topic = some p →
        get_publisher now pubs topic = (p, pubs))
    ∧ get_publisher now2 (get_publisher now pubs topic).2 topic =
        ((get_publisher now pubs topic).1, (get_publisher now pubs topic).2) := by
  refine ⟨fun h => by simp [get_publisher, h], fun p h => by simp [get_publisher, h], ?_⟩
  cases h : dictLookup pubs topic with
  | some p => simp [get_publisher, h]
  | none => simp [get_publisher, h, dictLookup_dictInsert]

theorem c6_get_publisher_idempotent_witness :
    get_publisher 42 [] "instance/status/InstanceStartedEvent" =
      (⟨"instance/status/InstanceStartedEvent", 42⟩,
        [("instance/status/InstanceStartedEvent",
          ⟨"instance/status/InstanceStartedEvent", 42⟩)])
    ∧ get_publisher 99 (get_publisher 42 [] "instance/status/InstanceStartedEvent").2
        "instance/status/InstanceStartedEvent" =
        ((get_publisher 42 [] "instance/status/InstanceStartedEvent").1,
         (get_publisher 42 [] "instance/status/InstanceStartedEvent").2) :=
  ⟨(c6_get_publisher_idempotent [] "instance/status/InstanceStartedEvent" 42 99).1 rfl,
   (c6_get_publisher_idempotent [] "instance/status/InstanceStartedEvent" 42 99).2.2⟩

/-- C10: the two bootstrap-request operations carry no one-shot flag guard:
whatever the configuration (in particular, whatever the four lifecycle flags
hold), every call constructs exactly one fresh event and spawns exactly one
delivery task, and leaves the configuration unchanged. -/
theorem c10_bootstrap_requests_not_gated (cfg : Config) (pubs : Registry)
    (now : Int) :
    (publish_complete_topology_request_event cfg pubs now).1 = cfg
    ∧ countConstructs (publish_complete_topology_request_event cfg pubs now).2.2 = 1
    ∧ countSpawns (publish_complete_topology_request_event cfg pubs now).2.2 = 1
    ∧ (publish_complete_tenant_request_event cfg pubs now).1 = cfg
    ∧ countConstructs (publish_complete_tenant_request_event cfg pubs now).2.2 = 1
    ∧ countSpawns (publish_complete_tenant_request_event cfg pubs now).2.2 = 1 := by
  simp [publish_complete_topology_request_event, publish_complete_tenant_request_event,
    countConstructs, countSpawns]

/-- C9: a delivery task that starts when the elapsed seconds since the
publisher's creation timestamp already reach or exceed the code's deadline
bound (`Config.mb_publisher_timeout * 1000`) performs zero endpoint attempts
and zero sleeps: it immediately logs the drop warning and discards the
event. -/
theorem c9_expired_deadline_drops_immediately (cfg : Config) (p : EventPublisher)
    (clock : Nat → Int) (ok : Nat → Nat → Bool) (fuel : Nat)
    (h : cfg.mb_publisher_timeout * 1000 ≤ clock 0 - p.start_time) :
    publish_event cfg p clock ok (fuel + 1) =
      (TaskResult.dropped, [Effect.logWarn (dropMsg cfg.mb_publisher_timeout)])
    ∧ countAttempts (publish_event cfg p clock ok (fuel + 1)).2 = 0
    ∧ countSleeps (publish_event cfg p clock ok (fuel + 1)).2 = 0 := by
  have hguard : ¬ (clock 0 - p.start_time < cfg.mb_publisher_timeout * 1000) :=
    not_lt.mpr h
  refine ⟨?_, ?_, ?_⟩ <;>
    simp [publish_event, publishLoop, hguard, countAttempts, countSleeps]

theorem c9_expired_deadline_drops_immediately_witness :
    publish_event sampleConfig ⟨"instance/status/InstanceStartedEvent", 0⟩
        (fun _ => 900000) (fun _ _ => false) 5 =
      (TaskResult.dropped, [Effect.logWarn (dropMsg 900)]) :=
  (c9_expired_deadline_drops_immediately sampleConfig
    ⟨"instance/status/InstanceStartedEvent", 0⟩ (fun _ => 900000)
    (fun _ _ => false) 4 (by norm_num [sampleConfig])).1

/-- C1 (code bug evidence): with `mb_publisher_timeout = 1` and 2 seconds
elapsed since the publisher's creation, the claim and the source docstring
say the retry loop must not be (re-)entered; the code's guard compares the
elapsed seconds against `mb_publisher_timeout * 1000`, so the loop body still
runs: an endpoint attempt and a sleep happen and the task is not dropped. -/
theorem c1_loop_entered_past_configured_timeout :
    (1 : Int) ≤ (2 : Int) - 0
    ∧ publishLoop 0 1 ["localhost:1883"] (fun _ => 2) (fun _ _ => false) 1 0 =
        (TaskResult.outOfFuel,
          [Effect.attemptPublish "localhost" "1883",
           Effect.logDebug (endpointFailMsg "localhost" "1883"),
           Effect.logDebug (retryMsg 2),
           Effect.sleep 2])
    ∧ (publishLoop 0 1 ["localhost:1883"] (fun _ => 2) (fun _ _ => false) 1 0).1
        ≠ TaskResult.dropped := by
  refine ⟨by norm_num, by decide, by decide⟩

theorem started_flag_noop (cfg : Config) (pubs : Registry) (now : Int)
    (h : cfg.started = true) :
    publish_instance_started_event cfg pubs now =
      (cfg, pubs, [Effect.logWarn "Instance already started"]) := by
  simp [publish_instance_started_event, h]

theorem activated_flag_noop (cfg : Config) (pubs : Registry) (now : Int)
    (pa : Bool) (h : cfg.activated = true) :
    publish_instance_activated_event cfg pubs now pa =
      (cfg, pubs, [Effect.logWarn "Instance already activated"]) := by
  simp [publish_instance_activated_event, h]

theorem maintenance_flag_noop (cfg : Config) (pubs : Registry) (now : Int)
    (h : cfg.maintenance = true) :
    publish_maintenance_mode_event cfg pubs now =
      (cfg, pubs, [Effect.logWarn "Instance already in a maintenance mode"]) := by
  simp [publish_maintenance_mode_event, h]

theorem shutdown_flag_noop (cfg : Config) (pubs : Registry) (now : Int)
    (h : cfg.ready_to_shutdown = true) :
    publish_instance_ready_to_shutdown_event cfg pubs now =
      (cfg, pubs, [Effect.logWarn "Instance already in a ReadyToShutDown event..."]) := by
  simp [publish_instance_ready_to_shutdown_event, h]

theorem activated_publish_spawns (cfg : Config) (pubs : Registry) (now : Int)
    (h : cfg.activated = false) :
    (publish_instance_activated_event cfg pubs now true).1 =
      {cfg with activated := true}
    ∧ countSpawns (publish_instance_activated_event cfg pubs now true).2.2 = 1
    ∧ countConstructs (publish_instance_activated_event cfg pubs now true).2.2 = 1 := by
  cases hcep : cfg.cep_publisher_enabled <;>
    simp [publish_instance_activated_event, h, hcep, countSpawns_append,
      countConstructs_append, countSpawns, countConstructs]

/-- C3 counterexample: at a concrete configuration with statistics publishing
enabled and live ports, the statistics-publishing task is started at trace
position 7, strictly before the activated-flag write at position 8 - so the
start of the statistics task does precede the write of the activated flag. -/
theorem c3_stats_start_precedes_flag_counterexample :
    (publish_instance_activated_event sampleConfig [] 0 true).2.2[7]? =
      some (Effect.startStatsPublisher 15)
    ∧ (publish_instance_activated_event sampleConfig [] 0 true).2.2[8]? =
      some Effect.setActivatedFlag
    ∧ (7 : Nat) < 8 := by
  refine ⟨by decide, by decide, by decide⟩

/-- C3 amended: in `publish_instance_activated_event`, when statistics
publishing is enabled, the statistics-publishing task is started immediately
BEFORE the activated flag is written: the task start is the effect at
position 7 and the flag write the effect at position 8 of the operation's
effect sequence. -/
theorem c3_amended_stats_start_then_flag_write (cfg : Config) (pubs : Registry)
    (now : Int) (h1 : cfg.activated = false) (h2 : cfg.cep_publisher_enabled = true) :
    (publish_instance_activated_event cfg pubs now true).2.2[7]? =
      some (Effect.startStatsPublisher (parseStatsInterval cfg.stats_notifier_interval))
    ∧ (publish_instance_activated_event cfg pubs now true).2.2[8]? =
      some Effect.setActivatedFlag := by
  simp [publish_instance_activated_event, h1, h2]

theorem c3_amended_stats_start_then_flag_write_witness :
    (publish_instance_activated_event sampleConfig [] 3 true).2.2[7]? =
      some (Effect.startStatsPublisher (parseStatsInterval sampleConfig.stats_notifier_interval))
    ∧ (publish_instance_activated_event sampleConfig [] 3 true).2.2[8]? =
      some Effect.setActivatedFlag :=
  c3_amended_stats_start_then_flag_write sampleConfig [] 3 rfl rfl

/-- C2: for each of the four lifecycle-event kinds, once the corresponding
flag is true the kind's publish function is a no-op that only logs a warning
- it changes no state and its trace holds no event construction, publisher
lookup or delivery-task spawn; consequently two sequential calls (the first
with live ports, for the activated kind) spawn exactly one delivery task. -/
theorem c2_lifecycle_gate_one_shot (k : Kind) (cfg : Config) (pubs : Registry)
    (now now2 : Int) (pa pa2 : Bool) :
    (flagOf k cfg = true →
      gateCall k cfg pubs now pa = (cfg, pubs, [Effect.logWarn (alreadyMsg k)]))
    ∧ (flagOf k cfg = false → (k = Kind.activated → pa = true) →
        countSpawns (gateCall k cfg pubs now pa).2.2 = 1
        ∧ countSpawns (gateCall k (gateCall k cfg pubs now pa).1
            (gateCall k cfg pubs now pa).2.1 now2 pa2).2.2 = 0) := by
  cases k with
  | started =>
      refine ⟨fun h => ?_, fun h _ => ?_⟩
      · simpa [gateCall, alreadyMsg] using started_flag_noop cfg pubs now h
      · have h' : cfg.started = false := h
        constructor
        · simp [gateCall, publish_instance_started_event, h', countSpawns]
        · have h2 : (publish_instance_started_event cfg pubs now).1.started = true := by
            simp [publish_instance_started_event, h']
          simp [gateCall, started_flag_noop _ _ now2 h2, countSpawns]
  | activated =>
      refine ⟨fun h => ?_, fun h hpa => ?_⟩
      · simpa [gateCall, alreadyMsg] using activated_flag_noop cfg pubs now pa h
      · have h' : cfg.activated = false := h
        have hpa' : pa = true := hpa rfl
        subst hpa'
        obtain ⟨hst, hsp, _⟩ := activated_publish_spawns cfg pubs now h'
        refine ⟨by simpa [gateCall] using hsp, ?_⟩
        have h2 : (publish_instance_activated_event cfg pubs now true).1.activated = true := by
          simp [hst]
        simp [gateCall, activated_flag_noop _ _ now2 pa2 h2, countSpawns]
  | maintenance =>
      refine ⟨fun h => ?_, fun h _ => ?_⟩
      · simpa [gateCall, alreadyMsg] using maintenance_flag_noop cfg pubs now h
      · have h' : cfg.maintenance = false := h
        constructor
        · simp [gateCall, publish_maintenance_mode_event, h', countSpawns]
        · have h2 : (publish_maintenance_mode_event cfg pubs now).1.maintenance = true := by
            simp [publish_maintenance_mode_event, h']
          simp [gateCall, maintenance_flag_noop _ _ now2 h2, countSpawns]
  | readyToShutdown =>
      refine ⟨fun h => ?_, fun h _ => ?_⟩
      · simpa [gateCall, alreadyMsg] using shutdown_flag_noop cfg pubs now h
      · have h' : cfg.ready_to_shutdown = false := h
        constructor
        · simp [gateCall, publish_instance_ready_to_shutdown_event, h', countSpawns]
        · have h2 : (publish_instance_ready_to_shutdown_event cfg pubs now).1.ready_to_shutdown = true := by
            simp [publish_instance_ready_to_shutdown_event, h']
          simp [gateCall, shutdown_flag_noop _ _ now2 h2, countSpawns]

theorem c2_lifecycle_gate_one_shot_witness :
    gateCall Kind.started ({sampleConfig with started := true}) [] 0 true =
      ({sampleConfig with started := true}, [],
        [Effect.logWarn (alreadyMsg Kind.started)])
    ∧ countSpawns (gateCall Kind.maintenance sampleConfig [] 0 true).2.2 = 1
    ∧ countSpawns (gateCall Kind.maintenance
        (gateCall Kind.maintenance sampleConfig [] 0 true).1
        (gateCall Kind.maintenance sampleConfig [] 0 true).2.1 1 true).2.2 = 0 :=
  ⟨(c2_lifecycle_gate_one_shot Kind.started {sampleConfig with started := true}
      [] 0 1 true true).1 rfl,
   ((c2_lifecycle_gate_one_shot Kind.maintenance sampleConfig [] 0 1 true true).2
      rfl (fun hk => by cases hk)).1,
   ((c2_lifecycle_gate_one_shot Kind.maintenance sampleConfig [] 0 1 true true).2
      rfl (fun hk => by cases hk)).2⟩

/-- C4: when the port liveness check fails, `publish_instance_activated_event`
aborts atomically - it only logs an error, leaves the configuration (in
particular the activated flag) and the registry untouched - and a subsequent
call with live ports publishes and sets the flag, after which a third call is
a warning-only no-op: the flag is set exactly once. -/
theorem c4_ports_timeout_aborts_atomically (cfg : Config) (pubs : Registry)
    (now now2 now3 : Int) (h : cfg.activated = false) :
    publish_instance_activated_event cfg pubs now false =
      (cfg, pubs, [Effect.logError (portsErrMsg cfg)])
    ∧ (publish_instance_activated_event cfg pubs now2 true).1.activated = true
    ∧ countSpawns (publish_instance_activated_event cfg pubs now2 true).2.2 = 1
    ∧ countConstructs (publish_instance_activated_event cfg pubs now2 true).2.2 = 1
    ∧ publish_instance_activated_event
        (publish_instance_activated_event cfg pubs now2 true).1
        (publish_instance_activated_event cfg pubs now2 true).2.1 now3 true =
        ((publish_instance_activated_event cfg pubs now2 true).1,
         (publish_instance_activated_event cfg pubs now2 true).2.1,
         [Effect.logWarn "Instance already activated"]) := by
  obtain ⟨hst, hsp, hco⟩ := activated_publish_spawns cfg pubs now2 h
  refine ⟨by simp [publish_instance_activated_event, h], ?_, hsp, hco, ?_⟩
  · simp [hst]
  · exact activated_flag_noop _ _ now3 true (by simp [hst])

theorem c4_ports_timeout_aborts_atomically_witness :
    publish_instance_activated_event sampleConfig [] 0 false =
      (sampleConfig, [], [Effect.logError (portsErrMsg sampleConfig)])
    ∧ (publish_instance_activated_event sampleConfig [] 1 true).1.activated = true :=
  ⟨(c4_ports_timeout_aborts_atomically sampleConfig [] 0 1 2 rfl).1,
   (c4_ports_timeout_aborts_atomically sampleConfig [] 0 1 2 rfl).2.1⟩

theorem sweepFrom_no_sleep_no_warn (ok : Nat → Bool) :
    ∀ (urls : List String) (j : Nat),
      countSleeps (sweepFrom ok urls j).2 = 0
      ∧ countWarns (sweepFrom ok urls j).2 = 0
  | [], j => by simp [sweepFrom, countSleeps, countWarns]
  | url :: rest, j => by
      have ih := sweepFrom_no_sleep_no_warn ok rest (j + 1)
      unfold sweepFrom
      rcases hu : parseUrl url with _ | ⟨ip, port⟩
      · simp [countSleeps, countWarns]
      · by_cases hok : ok j
        · simp [hok, countSleeps, countWarns]
        · simp [hok, countSleeps, countWarns, ih.1, ih.2]

theorem sweepFrom_no_raise (ok : Nat → Bool) :
    ∀ (urls : List String) (j : Nat),
      (∀ u ∈ urls, (parseUrl u).isSome = true) →
      (sweepFrom ok urls j).1 ≠ none
  | [], j, _ => by simp [sweepFrom]
  | url :: rest, j, hwf => by
      have ih := sweepFrom_no_raise ok rest (j + 1) (fun u hu => hwf u (by simp [hu]))
      have hhd := hwf url (by simp)
      unfold sweepFrom
      rcases hu : parseUrl url with _ | ⟨ip, port⟩
      · rw [hu] at hhd
        simp at hhd
      · by_cases hok : ok j
        · simp [hok]
        · simpa [hok] using ih

theorem sweepFrom_first_success (ok : Nat → Bool) :
    ∀ (urls : List String) (k j : Nat),
      (∀ u ∈ urls, (parseUrl u).isSome = true) →
      j < urls.length →
      ok (k + j) = true →
      (∀ m, m < j → ok (k + m) = false) →
      (sweepFrom ok urls k).1 = some true
      ∧ attemptsOf (sweepFrom ok urls k).2 = (urls.take (j + 1)).filterMap parseUrl
      ∧ countAttempts (sweepFrom ok urls k).2 = j + 1
  | [], k, j, hwf, hj, hok, hfail => absurd hj (by simp)
  | url :: rest, k, j, hwf, hj, hok, hfail => by
      have hhd := hwf url (by simp)
      rcases hu : parseUrl url with _ | ⟨ip, port⟩
      · rw [hu] at hhd
        simp at hhd
      · cases j with
        | zero =>
            have hok0 : ok k = true := by simpa using hok
            unfold sweepFrom
            simp [hu, hok0, attemptsOf, countAttempts]
        | succ j' =>
            have hfail0 : ok k = false := by simpa using hfail 0 (Nat.succ_pos j')
            have ih := sweepFrom_first_success ok rest (k + 1) j'
              (fun u hu2 => hwf u (by simp [hu2]))
              (by simpa using Nat.lt_of_succ_lt_succ hj)
              (by
                have : k + 1 + j' = k + (j' + 1) := by omega
                rw [this]
                exact hok)
              (fun m hm => by
                have : k + 1 + m = k + (m + 1) := by omega
                rw [this]
                exact hfail (m + 1) (by omega))
            unfold sweepFrom
            simp only [hu, hfail0]
            refine ⟨by simpa using ih.1, ?_, ?_⟩
            · simp [attemptsOf, hu, ih.2.1]
            · simp [countAttempts, ih.2.2]

theorem sweepFrom_all_fail (ok : Nat → Bool) :
    ∀ (urls : List String) (j : Nat),
      (∀ u ∈ urls, (parseUrl u).isSome = true) →
      (∀ m, ok m = false) →
      (sweepFrom ok urls j).1 = some false
      ∧ countAttempts (sweepFrom ok urls j).2 = urls.length
      ∧ countDebugs (sweepFrom ok urls j).2 = urls.length
  | [], j, _, _ => by simp [sweepFrom, countAttempts, countDebugs]
  | url :: rest, j, hwf, hfail => by
      have hhd := hwf url (by simp)
      have ih := sweepFrom_all_fail ok rest (j + 1)
        (fun u hu2 => hwf u (by simp [hu2])) hfail
      rcases hu : parseUrl url with _ | ⟨ip, port⟩
      · rw [hu] at hhd
        simp at hhd
      · unfold sweepFrom
        simp [hu, hfail j, countAttempts, countDebugs, ih.1, ih.2.1, ih.2.2]

/-- C5: under a live deadline guard, if within sweep `i` the endpoints before
index `j` fail and endpoint `j` succeeds, the delivery task terminates
successfully having attempted exactly the endpoints `0..j` in configured list
order - no remaining endpoint is attempted and no sleep occurs. -/
theorem c5_first_successful_endpoint_wins (start timeout : Int)
    (urls : List String) (clock : Nat → Int) (ok : Nat → Nat → Bool)
    (fuel i j : Nat)
    (hguard : clock i - start < timeout * 1000)
    (hwf : ∀ u ∈ urls, (parseUrl u).isSome = true)
    (hj : j < urls.length)
    (hok : ok i j = true)
    (hfail : ∀ m, m < j → ok i m = false) :
    (publishLoop start timeout urls clock ok (fuel + 1) i).1 = TaskResult.success
    ∧ attemptsOf (publishLoop start timeout urls clock ok (fuel + 1) i).2 =
        (urls.take (j + 1)).filterMap parseUrl
    ∧ countAttempts (publishLoop start timeout urls clock ok (fuel + 1) i).2 = j + 1
    ∧ countSleeps (publishLoop start timeout urls clock ok (fuel + 1) i).2 = 0 := by
  have hs := sweepFrom_first_success (ok i) urls 0 j hwf hj
    (by simpa using hok) (fun m hm => by simpa using hfail m hm)
  have hsl := sweepFrom_no_sleep_no_warn (ok i) urls 0
  have hpair : sweepFrom (ok i) urls 0 = (some true, (sweepFrom (ok i) urls 0).2) := by
    rw [← hs.1]
  unfold publishLoop
  rw [if_pos hguard]
  rw [hpair]
  exact ⟨rfl, hs.2.1, hs.2.2, hsl.1⟩

theorem c5_first_successful_endpoint_wins_witness :
    (publishLoop 0 900 ["hostA:1883", "hostB:1883"] (fun _ => 5)
        (fun _ jj => jj == 1) 1 0).1 = TaskResult.success
    ∧ attemptsOf (publishLoop 0 900 ["hostA:1883", "hostB:1883"] (fun _ => 5)
        (fun _ jj => jj == 1) 1 0).2 = [("hostA", "1883"), ("hostB", "1883")]
    ∧ countSleeps (publishLoop 0 900 ["hostA:1883", "hostB:1883"] (fun _ => 5)
        (fun _ jj => jj == 1) 1 0).2 = 0 := by
  have h := c5_first_successful_endpoint_wins 0 900 ["hostA:1883", "hostB:1883"]
    (fun _ => 5) (fun _ jj => jj == 1) 0 0 1 (by norm_num) (by decide)
    (by decide) (by decide) (fun m hm => by interval_cases m; decide)
  exact ⟨h.1, by rw [h.2.1]; decide, h.2.2.2⟩

theorem logWarn_not_mem_of_countWarns_zero (m : String) :
    ∀ l : List Effect, countWarns l = 0 → Effect.logWarn m ∉ l
  | [], _ => by simp
  | e :: es, h => by
      cases e with
      | logWarn msg => simp [countWarns] at h
      | _ =>
          have ih := logWarn_not_mem_of_countWarns_zero m es (by simpa [countWarns] using h)
          simp [ih]

theorem publishLoop_no_raise (start timeout : Int) (urls : List String)
    (clock : Nat → Int) (ok : Nat → Nat → Bool)
    (hwf : ∀ u ∈ urls, (parseUrl u).isSome = true) :
    ∀ (fuel i : Nat),
      (publishLoop start timeout urls clock ok fuel i).1 ≠ TaskResult.raised
  | 0, i => by simp [publishLoop]
  | fuel + 1, i => by
      have ih := publishLoop_no_raise start timeout urls clock ok hwf fuel (i + 1)
      unfold publishLoop
      by_cases hg : clock i - start < timeout * 1000
      · rw [if_pos hg]
        have hnr := sweepFrom_no_raise (ok i) urls 0 hwf
        rcases hsw : sweepFrom (ok i) urls 0 with ⟨r, es⟩
        rw [hsw] at hnr
        cases r with
        | none => exact absurd rfl hnr
        | some b => cases b <;> simp [ih]
      · rw [if_neg hg]
        simp

theorem publishLoop_warn_discipline (start timeout : Int) (urls : List String)
    (clock : Nat → Int) (ok : Nat → Nat → Bool) :
    ∀ (fuel i : Nat),
      countWarns (publishLoop start timeout urls clock ok fuel i).2 =
        (if (publishLoop start timeout urls clock ok fuel i).1 = TaskResult.dropped
          then 1 else 0)
      ∧ (∀ m, Effect.logWarn m ∈ (publishLoop start timeout urls clock ok fuel i).2 →
          m = dropMsg timeout)
  | 0, i => by simp [publishLoop, countWarns]
  | fuel + 1, i => by
      have ih := publishLoop_warn_discipline start timeout urls clock ok fuel (i + 1)
      have hsw0 := sweepFrom_no_sleep_no_warn (ok i) urls 0
      unfold publishLoop
      by_cases hg : clock i - start < timeout * 1000
      · rw [if_pos hg]
        rcases hsw : sweepFrom (ok i) urls 0 with ⟨r, es⟩
        have hes0 : countWarns es = 0 := by
          have := hsw0.2
          rw [hsw] at this
          exact this
        cases r with
        | none =>
            constructor
            · simpa using hes0
            · intro m hm
              exact absurd hm (logWarn_not_mem_of_countWarns_zero m es hes0)
        | some b =>
            cases b with
            | true =>
                constructor
                · simpa using hes0
                · intro m hm
                  exact absurd hm (logWarn_not_mem_of_countWarns_zero m es hes0)
            | false =>
                constructor
                · simp [countWarns_append, hes0, countWarns, ih.1]
                · intro m hm
                  simp only [List.mem_append, List.mem_cons] at hm
                  rcases hm with (hm | hm) | hm
                  · exact absurd hm (logWarn_not_mem_of_countWarns_zero m es hes0)
                  · rcases hm with hm | hm | hm
                    · exact absurd hm (by simp)
                    · exact absurd hm (by simp)
                    · simp at hm
                  · exact ih.2 m hm
      · rw [if_neg hg]
        constructor
        · simp [countWarns]
        · intro m hm
          simpa using hm

/-- C7: with well-formed broker URLs, every individual endpoint publish
failure is swallowed inside the sweep - the task never ends by a raised
exception, a sweep in which every endpoint fails still attempts every
endpoint and logs each failure at debug level - and the trace carries a
warning exactly when the task ends by deadline exhaustion; that unique
warning is the drop message, which spells out the configured timeout
value. -/
theorem c7_failures_swallowed_deadline_only_terminal (start timeout : Int)
    (urls : List String) (clock : Nat → Int) (ok : Nat → Nat → Bool)
    (fuel i : Nat)
    (hwf : ∀ u ∈ urls, (parseUrl u).isSome = true) :
    (publishLoop start timeout urls clock ok fuel i).1 ≠ TaskResult.raised
    ∧ countWarns (publishLoop start timeout urls clock ok fuel i).2 =
        (if (publishLoop start timeout urls clock ok fuel i).1 = TaskResult.dropped
          then 1 else 0)
    ∧ (∀ m, Effect.logWarn m ∈ (publishLoop start timeout urls clock ok fuel i).2 →
        m = dropMsg timeout)
    ∧ (∃ pre post, dropMsg timeout = pre ++ toString timeout ++ post)
    ∧ (∀ i2 : Nat, (∀ jj, ok i2 jj = false) →
        (sweepFrom (ok i2) urls 0).1 = some false
        ∧ countAttempts (sweepFrom (ok i2) urls 0).2 = urls.length
        ∧ countDebugs (sweepFrom (ok i2) urls 0).2 = urls.length) := by
  refine ⟨publishLoop_no_raise start timeout urls clock ok hwf fuel i,
    (publishLoop_warn_discipline start timeout urls clock ok fuel i).1,
    (publishLoop_warn_discipline start timeout urls clock ok fuel i).2,
    ⟨"Could not publish even to any of the provided message brokers before the timeout [",
     "] exceeded. The event will be dropped.", rfl⟩,
    fun i2 hfail => sweepFrom_all_fail (ok i2) urls 0 hwf hfail⟩

theorem c7_failures_swallowed_deadline_only_terminal_witness :
    (publishLoop 0 900 ["localhost:1883"] (fun _ => 0) (fun _ _ => false) 1 0).1
      ≠ TaskResult.raised
    ∧ (sweepFrom ((fun _ (_ : Nat) => false) 0) ["localhost:1883"] 0).1 = some false :=
  ⟨(c7_failures_swallowed_deadline_only_terminal 0 900 ["localhost:1883"]
      (fun _ => 0) (fun _ _ => false) 1 0 (by decide)).1,
   ((c7_failures_swallowed_deadline_only_terminal 0 900 ["localhost:1883"]
      (fun _ => 0) (fun _ _ => false) 1 0 (by decide)).2.2.2.2 0
      (fun _ => rfl)).1⟩

/-- C8 counterexample: `get_publisher`'s check-then-insert is not atomic.
Interleaving two concurrent `get_publisher "T"` calls as
check(0), check(1), store(0), return(0), store(1), return(1) constructs TWO
publishers for topic T, and the two calls return different instances. -/
theorem c8_duplicate_construction_counterexample :
    (raceRun "T" (fun i => Int.ofNat i) [true, false, true, true, false, false]
        0 raceInit).constructions = 2
    ∧ (raceRun "T" (fun i => Int.ofNat i) [true, false, true, true, false, false]
        0 raceInit).t0.retVal ≠
      (raceRun "T" (fun i => Int.ofNat i) [true, false, true, true, false, false]
        0 raceInit).t1.retVal := by
  refine ⟨by decide, by decide⟩

theorem storeContribution_le_one (t : RaceThread) : storeContribution t ≤ 1 := by
  unfold storeContribution
  split <;> omega

theorem raceThreadStep_preserve (topic : String) (now : Int) (pubs : Registry)
    (t u : RaceThread) (cons : Nat)
    (hmap : pubs = [] ∨ ∃ p : EventPublisher, pubs = [(topic, p)] ∧ p.topic = topic)
    (hrt : t.pc = RacePC.ret → (dictLookup pubs topic).isSome = true)
    (hdt : t.pc = RacePC.done → ∃ p, t.retVal = some p ∧ p.topic = topic)
    (hru : u.pc = RacePC.ret → (dictLookup pubs topic).isSome = true)
    (hcons : cons ≤ storeContribution t + storeContribution u) :
    ((raceThreadStep topic now pubs t cons).1 = []
      ∨ ∃ p : EventPublisher, (raceThreadStep topic now pubs t cons).1 = [(topic, p)]
          ∧ p.topic = topic)
    ∧ ((raceThreadStep topic now pubs t cons).2.1.pc = RacePC.ret →
        (dictLookup (raceThreadStep topic now pubs t cons).1 topic).isSome = true)
    ∧ ((raceThreadStep topic now pubs t cons).2.1.pc = RacePC.done →
        ∃ p, (raceThreadStep topic now pubs t cons).2.1.retVal = some p
          ∧ p.topic = topic)
    ∧ (u.pc = RacePC.ret →
        (dictLookup (raceThreadStep topic now pubs t cons).1 topic).isSome = true)
    ∧ (raceThreadStep topic now pubs t cons).2.2 ≤
        storeContribution (raceThreadStep topic now pubs t cons).2.1
          + storeContribution u := by
  have hlook : ∀ p : EventPublisher, dictLookup pubs topic = some p →
      p.topic = topic := by
    intro p hp
    rcases hmap with hmap | ⟨q, hq, hqt⟩
    · rw [hmap] at hp
      simp [dictLookup] at hp
    · rw [hq] at hp
      simp [dictLookup] at hp
      rw [← hp]
      exact hqt
  have hinsmap : dictInsert pubs topic ⟨topic, now⟩ = []
      ∨ ∃ p : EventPublisher, dictInsert pubs topic ⟨topic, now⟩ = [(topic, p)]
          ∧ p.topic = topic := by
    rcases hmap with hmap | ⟨q, hq, hqt⟩
    · rw [hmap]
      exact Or.inr ⟨⟨topic, now⟩, by simp [dictInsert], rfl⟩
    · rw [hq]
      exact Or.inr ⟨⟨topic, now⟩, by simp [dictInsert], rfl⟩
  cases hpc : t.pc with
  | check =>
      by_cases hl : (dictLookup pubs topic).isSome = true
      · have hstep : raceThreadStep topic now pubs t cons =
            (pubs, {t with pc := RacePC.ret}, cons) := by
          simp [raceThreadStep, hpc, hl]
        rw [hstep]
        have hwt : storeContribution t = 0 := by simp [storeContribution, hpc]
        have hw2 : storeContribution ({t with pc := RacePC.ret}) = 1 := by
          simp [storeContribution]
        refine ⟨hmap, fun _ => hl, by simp, fun _ => hl, ?_⟩
        rw [hwt] at hcons
        rw [hw2]
        show cons ≤ 1 + storeContribution u
        omega
      · have hstep : raceThreadStep topic now pubs t cons =
            (pubs, {t with pc := RacePC.store}, cons) := by
          simp [raceThreadStep, hpc, hl]
        rw [hstep]
        have hwt : storeContribution t = 0 := by simp [storeContribution, hpc]
        have hw2 : storeContribution ({t with pc := RacePC.store}) = 0 := by
          simp [storeContribution]
        refine ⟨hmap, by simp, by simp, hru, ?_⟩
        rw [hwt] at hcons
        rw [hw2]
        show cons ≤ 0 + storeContribution u
        omega
  | store =>
      have hstep : raceThreadStep topic now pubs t cons =
          (dictInsert pubs topic ⟨topic, now⟩, {t with pc := RacePC.ret}, cons + 1) := by
        simp [raceThreadStep, hpc]
      rw [hstep]
      have hwt : storeContribution t = 0 := by simp [storeContribution, hpc]
      have hsome : (dictLookup (dictInsert pubs topic ⟨topic, now⟩) topic).isSome = true := by
        simp [dictLookup_dictInsert]
      have hw2 : storeContribution ({t with pc := RacePC.ret}) = 1 := by
        simp [storeContribution]
      refine ⟨hinsmap, fun _ => hsome, by simp, fun _ => hsome, ?_⟩
      rw [hwt] at hcons
      rw [hw2]
      show cons + 1 ≤ 1 + storeContribution u
      omega
  | ret =>
      obtain ⟨p, hp⟩ := Option.isSome_iff_exists.mp (hrt hpc)
      have hstep : raceThreadStep topic now pubs t cons =
          (pubs, ⟨RacePC.done, dictLookup pubs topic⟩, cons) := by
        simp [raceThreadStep, hpc]
      rw [hstep]
      have hwt : storeContribution t = 1 := by simp [storeContribution, hpc]
      have hw2 : storeContribution (⟨RacePC.done, dictLookup pubs topic⟩ : RaceThread) = 1 := by
        simp [storeContribution]
      refine ⟨hmap, by simp, fun _ => ⟨p, hp, hlook p hp⟩, hru, ?_⟩
      rw [hwt] at hcons
      rw [hw2]
      show cons ≤ 1 + storeContribution u
      omega
  | done =>
      have hstep : raceThreadStep topic now pubs t cons = (pubs, t, cons) := by
        simp [raceThreadStep, hpc]
      rw [hstep]
      exact ⟨hmap, hrt, hdt, hru, hcons⟩

theorem raceStep_preserves_inv (topic : String) (now : Int) (b : Bool)
    (s : RaceState) (h : RaceInv topic s) :
    RaceInv topic (raceStep topic now b s) := by
  obtain ⟨hmap, hr0, hr1, hd0, hd1, hcons⟩ := h
  cases b with
  | true =>
      have hp := raceThreadStep_preserve topic now s.pubs s.t0 s.t1
        s.constructions hmap hr0 hd0 hr1 hcons
      exact ⟨hp.1, hp.2.1, hp.2.2.2.1, hp.2.2.1, hd1, hp.2.2.2.2⟩
  | false =>
      have hp := raceThreadStep_preserve topic now s.pubs s.t1 s.t0
        s.constructions hmap hr1 hd1 hr0
        (by rw [Nat.add_comm] at hcons; exact hcons)
      refine ⟨hp.1, hp.2.2.2.1, hp.2.1, hd0, hp.2.2.1, ?_⟩
      show (raceThreadStep topic now s.pubs s.t1 s.constructions).2.2 ≤
        storeContribution s.t0
          + storeContribution (raceThreadStep topic now s.pubs s.t1
              s.constructions).2.1
      have h5 := hp.2.2.2.2
      omega

theorem raceRun_preserves_inv (topic : String) (clock : Nat → Int) :
    ∀ (sched : List Bool) (i : Nat) (s : RaceState),
      RaceInv topic s → RaceInv topic (raceRun topic clock sched i s)
  | [], _, _, h => h
  | b :: rest, i, s, h =>
      raceRun_preserves_inv topic clock rest (i + 1)
        (raceStep topic (clock i) b s)
        (raceStep_preserves_inv topic (clock i) b s h)

theorem raceInit_inv (topic : String) : RaceInv topic raceInit := by
  refine ⟨Or.inl rfl, ?_, ?_, ?_, ?_, ?_⟩ <;> simp [raceInit, RacePC]

/-- C8 amended: the claim's safety part that survives - under every
interleaving of two concurrent `get_publisher` calls on the same topic, the
registry is never corrupted (it ends holding at most one binding, for that
topic, to a publisher carrying that topic), at most two publishers are
constructed, and every completed call returns a publisher for the requested
topic.  The identical-instance and at-most-one-construction parts of the
claim fail, as the six-step interleaving above shows. -/
theorem c8_amended_race_safety (topic : String) (clock : Nat → Int)
    (sched : List Bool) (i : Nat) :
    ((raceRun topic clock sched i raceInit).pubs = []
      ∨ ∃ p : EventPublisher,
          (raceRun topic clock sched i raceInit).pubs = [(topic, p)]
          ∧ p.topic = topic)
    ∧ (raceRun topic clock sched i raceInit).constructions ≤ 2
    ∧ ((raceRun topic clock sched i raceInit).t0.pc = RacePC.done →
        ∃ p, (raceRun topic clock sched i raceInit).t0.retVal = some p
          ∧ p.topic = topic)
    ∧ ((raceRun topic clock sched i raceInit).t1.pc = RacePC.done →
        ∃ p, (raceRun topic clock sched i raceInit).t1.retVal = some p
          ∧ p.topic = topic) := by
  obtain ⟨hmap, _, _, hd0, hd1, hcons⟩ :=
    raceRun_preserves_inv topic clock sched i raceInit (raceInit_inv topic)
  refine ⟨hmap, ?_, hd0, hd1⟩
  have h0 := storeContribution_le_one (raceRun topic clock sched i raceInit).t0
  have h1 := storeContribution_le_one (raceRun topic clock sched i raceInit).t1
  omega

theorem c8_amended_race_safety_witness :
    ∃ p, (raceRun "T" (fun _ => 7) [true, true, true] 0 raceInit).t0.retVal =
        some p ∧ p.topic = "T" :=
  (c8_amended_race_safety "T" (fun _ => 7) [true, true, true] 0).2.2.1 (by decide)

end Stratos
